import Mathlib

/-!
Shallow embedding of the iced-based text editor in src/src/main.rs.

The repository is a single-file reactive GUI application: a state struct
`Editor`, a message enum `Message`, a transition function `Editor::update`
returning an asynchronous `Task`, a pure `Editor::view`, and async helpers
`load_file`, `pick_file`, `save_file`.

Modelling choices:
* `std::path::PathBuf` is an external OS-string type; the program observes it
  only through `Path::extension` and `Path::to_str` (both of which can fail,
  since OS strings need not be UTF-8).  We model a path abstractly by exactly
  those two observations.
* `iced::widget::text_editor::Content` is an external text buffer; the program
  observes it through `text()` and `cursor_position()` and mutates it through
  `perform(action)`.  We model it by its text and cursor, and an edit action
  by the buffer transformation it performs (opaque to the controller).
* `iced::Task` values are effect descriptors; we reify the three tasks the
  program ever schedules, and give them a semantics `IcedTask.run` in an
  environment that fixes the outcomes of the file dialogs and the filesystem.
* `async fn save_file` is modelled as a pure function of its arguments and of
  the dialog / write outcomes; its result also records whether the save
  dialog was shown and which writes were performed, mirroring the source's
  control flow (the dialog is awaited exactly in the `None` branch, and
  `tokio::fs::write` is called exactly once on the resolved path).
* `env!("CARGO_MANIFEST_DIR")` is a compile-time constant string; it is a
  parameter `manifestDir` of the model.
-/

/-- Model of the external `std::ffi::OsStr`: observed only via `to_str`,
which yields the string when the OS string is valid UTF-8. -/
structure OsStr where
  to_str : Option String
deriving DecidableEq

/-- Model of the external `std::path::PathBuf`: observed only via
`Path::extension` and `Path::to_str`. -/
structure PathBuf where
  extension : Option OsStr
  asStr : Option String
deriving DecidableEq

/-- `Path::to_str` on the modelled path. -/
def PathBuf.to_str (p : PathBuf) : Option String :=
  p.asStr

/-- Model of `std::io::ErrorKind`, observed only via its `Display` rendering
`to_string()`. -/
structure ErrorKind where
  message : String
deriving DecidableEq

/-- `ErrorKind`'s `to_string()`. -/
def ErrorKind.to_string (k : ErrorKind) : String :=
  k.message

/-- The custom error type of main.rs:
`enum Error \x7b IOFailed(ErrorKind), DialogClosed \x7d`. -/
inductive Error where
  | IOFailed (kind : ErrorKind)
  | DialogClosed
deriving DecidableEq

/-- Model of the external `text_editor::Content`: its full text and the
0-based cursor position reported by `cursor_position()`. -/
structure Content where
  text : String
  cursorLine : Nat
  cursorColumn : Nat
deriving DecidableEq

/-- `Content::new()`: an empty buffer. -/
def Content.new : Content :=
  { text := "", cursorLine := 0, cursorColumn := 0 }

/-- `Content::with_text(t)`: a fresh buffer holding `t`, cursor at origin. -/
def Content.with_text (t : String) : Content :=
  { text := t, cursorLine := 0, cursorColumn := 0 }

/-- `content.cursor_position()`. -/
def Content.cursor_position (c : Content) : Nat × Nat :=
  (c.cursorLine, c.cursorColumn)

/-- Model of an external `text_editor::Action`: opaque to the controller,
characterised by the buffer transformation that `Content::perform` applies.
(Named `EditAction` because Mathlib already declares `Action`.) -/
structure EditAction where
  apply : Content → Content

/-- `content.perform(action)`: delegate the edit to the external buffer. -/
def Content.perform (c : Content) (a : EditAction) : Content :=
  a.apply c

/-- Model of the external `iced::highlighter::Theme` (closed enum). -/
inductive HighlighterTheme where
  | SolarizedDark
  | Base16Mocha
  | Base16Ocean
  | Base16Eighties
  | InspiredGitHub
deriving DecidableEq

/-- The external `highlighter::Theme::is_dark()` classification: every
built-in theme except `InspiredGitHub` is dark-family. -/
def HighlighterTheme.is_dark : HighlighterTheme → Bool
  | .InspiredGitHub => false
  | _ => true

/-- Model of `iced::Theme` restricted to the two variants the program uses. -/
inductive IcedTheme where
  | Dark
  | Light
deriving DecidableEq

/-- The message enum of main.rs (source spelling kept, including the
`ThemeSeleceted` typo).  `FileOpened` is the spec's LoadCompleted and
`FileSaved` the spec's SaveCompleted. -/
inductive Message where
  | Edit (action : EditAction)
  | FileOpened (result : Except Error (PathBuf × String))
  | Open
  | New
  | Save
  | FileSaved (result : Except Error PathBuf)
  | ThemeSeleceted (theme : HighlighterTheme)

/-- The application state struct `Editor` of main.rs. -/
structure Editor where
  content : Content
  error : Option Error
  path : Option PathBuf
  theme : HighlighterTheme

/-- The effect descriptors (`iced::Task<Message>`) the program schedules.
Named `IcedTask` because `Task` is taken by the Lean core library.
`perform_load p` is `Task::perform(load_file(p), Message::FileOpened)`,
`perform_pick` is `Task::perform(pick_file(), Message::FileOpened)`,
`perform_save p t` is `Task::perform(save_file(p, t), Message::FileSaved)`. -/
inductive IcedTask where
  | none
  | perform_load (path : PathBuf)
  | perform_pick
  | perform_save (path : Option PathBuf) (text : String)
deriving DecidableEq

/-- `async fn load_file`: `tokio::fs::read_to_string` is modelled by the
environment's `read` outcome; an I/O error is wrapped as `Error::IOFailed`,
success pairs the path with the content read. -/
def load_file (path : PathBuf) (read : PathBuf → Except ErrorKind String) :
    Except Error (PathBuf × String) :=
  match read path with
  | .error error => .error (.IOFailed error)
  | .ok content => .ok (path, content)

/-- `fn default_load_file()`: `PathBuf::from` of `CARGO_MANIFEST_DIR`
followed by "/src/main.rs".  Whatever the manifest directory, the final
path component is "main.rs", so `Path::extension` is "rs"; the path is
built from Rust strings, so it is valid UTF-8. -/
def default_load_file (manifestDir : String) : PathBuf :=
  { extension := some { to_str := some "rs" },
    asStr := some (manifestDir ++ "/src/main.rs") }

/-- `async fn pick_file`: the open dialog's outcome is modelled by
`dialogResult` (`none` when the user dismisses it, yielding
`Error::DialogClosed`); on a picked path it delegates to `load_file`. -/
def pick_file (dialogResult : Option PathBuf)
    (read : PathBuf → Except ErrorKind String) :
    Except Error (PathBuf × String) :=
  match dialogResult with
  | Option.none => .error .DialogClosed
  | some file_path => load_file file_path read

/-- The observable outcome of one `save_file` call: its returned result,
whether the save dialog was awaited, and the `tokio::fs::write` calls
performed (path and text written). -/
structure SaveOutcome where
  result : Except Error PathBuf
  dialogShown : Bool
  writes : List (PathBuf × String)

/-- `async fn save_file(path, text)`: if `path` is `Some`, use it directly;
otherwise await the save dialog (`dialogResult`; `none` means dismissed,
yielding `Error::DialogClosed`).  The resolved path is then written with
`text`; a write error is wrapped as `Error::IOFailed`, success returns the
resolved path. -/
def save_file (path : Option PathBuf) (text : String)
    (dialogResult : Option PathBuf)
    (write : PathBuf → String → Except ErrorKind Unit) : SaveOutcome :=
  match path with
  | some path =>
    match write path text with
    | .ok _ => { result := .ok path, dialogShown := false, writes := [(path, text)] }
    | .error e => { result := .error (.IOFailed e), dialogShown := false, writes := [(path, text)] }
  | Option.none =>
    match dialogResult with
    | Option.none => { result := .error .DialogClosed, dialogShown := true, writes := [] }
    | some path =>
      match write path text with
      | .ok _ => { result := .ok path, dialogShown := true, writes := [(path, text)] }
      | .error e => { result := .error (.IOFailed e), dialogShown := true, writes := [(path, text)] }

/-- The outcomes of the external dialog and filesystem services, fixed so
that scheduled tasks have a deterministic completion message. -/
structure Env where
  read : PathBuf → Except ErrorKind String
  pickDialogResult : Option PathBuf
  saveDialogResult : Option PathBuf
  write : PathBuf → String → Except ErrorKind Unit

/-- Run an effect descriptor in an environment: the completion message it
delivers back to `update` (`none` for `Task::none()`). -/
def IcedTask.run (t : IcedTask) (env : Env) : Option Message :=
  match t with
  | .none => Option.none
  | .perform_load path => some (.FileOpened (load_file path env.read))
  | .perform_pick => some (.FileOpened (pick_file env.pickDialogResult env.read))
  | .perform_save path text =>
    some (.FileSaved (save_file path text env.saveDialogResult env.write).result)

/-- `Editor::new()`: empty buffer, no error, no path, SolarizedDark theme,
and a task loading the default file whose result arrives as `FileOpened`. -/
def Editor.new (manifestDir : String) : Editor × IcedTask :=
  ({ content := Content.new,
     error := Option.none,
     path := Option.none,
     theme := .SolarizedDark },
   .perform_load (default_load_file manifestDir))

/-- `Editor::update`, written as a pure transition
`(state, message) → (state, task)` mirroring the source match arm by arm. -/
def Editor.update (e : Editor) (message : Message) : Editor × IcedTask :=
  match message with
  | .Edit action =>
    ({ e with content := e.content.perform action }, .none)
  | .FileOpened (.ok (path, content)) =>
    ({ e with content := Content.with_text content, path := some path }, .none)
  | .FileOpened (.error error) =>
    ({ e with error := some error }, .none)
  | .Open =>
    (e, .perform_pick)
  | .New =>
    ({ e with content := Content.new, path := Option.none }, .none)
  | .Save =>
    (e, .perform_save e.path e.content.text)
  | .FileSaved (.ok path) =>
    ({ e with path := some path }, .none)
  | .FileSaved (.error error) =>
    ({ e with error := some error }, .none)
  | .ThemeSeleceted theme =>
    ({ e with theme := theme }, .none)

/-- The observable strings `Editor::view` computes: the language token
handed to `.highlight(...)`, the cursor position text, and the status-bar
primary (file path / error) text. -/
structure ViewModel where
  highlightToken : String
  positionText : String
  filePathText : String
deriving DecidableEq

/-- `Editor::view`, restricted to the data it derives from the state:
the highlight token
`self.path.as_deref().and_then(Path::extension).and_then(OsStr::to_str).unwrap_or("rs")`,
the 1-based cursor text, and the status-bar text (an `IOFailed` error's
message, else the path when it renders as UTF-8, else "New File"). -/
def Editor.view (e : Editor) : ViewModel :=
  { highlightToken :=
      ((e.path.bind PathBuf.extension).bind OsStr.to_str).getD "rs",
    positionText :=
      let (line, column) := e.content.cursor_position
      s!"{line + 1}:{column + 1}",
    filePathText :=
      match e.error with
      | some (.IOFailed error) => error.to_string
      | _ =>
        match e.path.bind PathBuf.to_str with
        | Option.none => "New File"
        | some path => path }

/-- `Editor::theme`: the render theme derived from the highlight theme.
(In the source this method shares its name with the `theme` field, which a
Lean structure does not allow, hence `renderTheme`.) -/
def Editor.renderTheme (e : Editor) : IcedTheme :=
  if e.theme.is_dark then .Dark else .Light

/-! Concrete sample values used by the witness theorems. -/

/-- A sample UTF-8 path with extension "rs". -/
def pathA : PathBuf :=
  { extension := some { to_str := some "rs" }, asStr := some "/tmp/a.rs" }

/-- A sample editor whose current path is `pathA`. -/
def editorWithPath : Editor :=
  { content := Content.with_text "hello",
    error := Option.none,
    path := some pathA,
    theme := .SolarizedDark }

/-- A sample editor with no current path. -/
def editorNoPath : Editor :=
  { content := Content.with_text "hello",
    error := Option.none,
    path := Option.none,
    theme := .SolarizedDark }

/-- A sample editor with a recorded dialog-dismissal error. -/
def editorWithError : Editor :=
  { content := Content.new,
    error := some .DialogClosed,
    path := Option.none,
    theme := .SolarizedDark }

/-- An environment whose filesystem operations succeed and whose dialogs
are dismissed. -/
def envDismiss : Env :=
  { read := fun _ => .ok "",
    pickDialogResult := Option.none,
    saveDialogResult := Option.none,
    write := fun _ _ => .ok () }

/-- C2: processing `FileOpened(Err(e))` (the spec's LoadCompleted error case)
sets the error slot to `Some(e)` and leaves the buffer and the current path
unchanged (and schedules nothing). -/
theorem C2_load_error_keeps_buffer_and_path (e : Editor) (err : Error) :
    (e.update (.FileOpened (.error err))).1.error = some err ∧
    (e.update (.FileOpened (.error err))).1.content = e.content ∧
    (e.update (.FileOpened (.error err))).1.path = e.path ∧
    (e.update (.FileOpened (.error err))).2 = .none := by
  refine ⟨?_, ?_, ?_, ?_⟩ <;> simp [Editor.update]

/-- C4: processing `New` yields an empty buffer and no current path,
whatever the prior state. -/
theorem C4_new_resets_buffer_and_path (e : Editor) :
    (e.update .New).1.content = Content.new ∧
    (e.update .New).1.content.text = "" ∧
    (e.update .New).1.path = Option.none ∧
    (e.update .New).2 = .none := by
  refine ⟨?_, ?_, ?_, ?_⟩ <;> simp [Editor.update, Content.new]

/-- C1: with `path = Some(p)`, `Save` leaves the state unchanged and
schedules `save_file(Some(p), text)`; that save never shows a dialog,
writes the buffer's full text directly to `p`, can only succeed with the
path `p`, and processing the success message `FileSaved(Ok(p))` leaves the
current path equal to `p`. -/
theorem C1_save_with_path_no_dialog (e : Editor) (p : PathBuf) (env : Env)
    (h : e.path = some p) :
    (e.update .Save).1 = e ∧
    (e.update .Save).2 = .perform_save (some p) e.content.text ∧
    (save_file (some p) e.content.text env.saveDialogResult env.write).dialogShown
      = false ∧
    (save_file (some p) e.content.text env.saveDialogResult env.write).writes
      = [(p, e.content.text)] ∧
    (∀ q, (save_file (some p) e.content.text env.saveDialogResult env.write).result
        = .ok q → q = p) ∧
    ((e.update .Save).1.update (.FileSaved (.ok p))).1.path = some p := by
  refine ⟨rfl, by simp [Editor.update, h], ?_, ?_, ?_, by simp [Editor.update]⟩ <;>
    cases hw : env.write p e.content.text with
  | _ => simp_all [save_file, hw]

/-- Witness for C1 at a concrete editor and environment. -/
theorem C1_save_with_path_no_dialog_witness :
    (save_file (some pathA) editorWithPath.content.text
      envDismiss.saveDialogResult envDismiss.write).dialogShown = false :=
  (C1_save_with_path_no_dialog editorWithPath pathA envDismiss rfl).2.2.1

/-- C3: with `path = None`, `Save` schedules `save_file(None, text)`; when
the save dialog is dismissed the task completes with
`FileSaved(Err(DialogClosed))`, and processing that message records the
error while leaving the current path `None` and the buffer unchanged. -/
theorem C3_save_dialog_dismissed (e : Editor) (env : Env)
    (h : e.path = Option.none) (hd : env.saveDialogResult = Option.none) :
    ((e.update .Save).2).run env
      = some (.FileSaved (.error .DialogClosed)) ∧
    ((e.update .Save).1.update (.FileSaved (.error .DialogClosed))).1.error
      = some .DialogClosed ∧
    ((e.update .Save).1.update (.FileSaved (.error .DialogClosed))).1.path
      = Option.none ∧
    ((e.update .Save).1.update (.FileSaved (.error .DialogClosed))).1.content
      = e.content := by
  refine ⟨?_, ?_, ?_, ?_⟩ <;> simp [Editor.update, IcedTask.run, save_file, h, hd]

/-- Witness for C3 at a concrete editor and environment. -/
theorem C3_save_dialog_dismissed_witness :
    ((editorNoPath.update .Save).1.update
      (.FileSaved (.error .DialogClosed))).1.error = some .DialogClosed :=
  (C3_save_dialog_dismissed editorNoPath envDismiss rfl rfl).2.1

/-- C5: the status-bar primary text is the error message when the last
error is an `IOFailed`; otherwise the current path when present (as its
UTF-8 rendering); otherwise the fixed "New File" label.  A recorded
`DialogClosed` error is excluded from the rule: the whole view is the same
as with no error at all. -/
theorem C5_status_bar_text (e : Editor) :
    (∀ k, e.error = some (.IOFailed k) → e.view.filePathText = k.message) ∧
    ((∀ k, e.error ≠ some (.IOFailed k)) →
      (∀ p s, e.path = some p → p.to_str = some s → e.view.filePathText = s) ∧
      (e.path = Option.none → e.view.filePathText = "New File")) ∧
    Editor.view { e with error := some .DialogClosed }
      = Editor.view { e with error := Option.none } := by
  refine ⟨?_, ?_, ?_⟩
  · intro k hk
    simp [Editor.view, hk, ErrorKind.to_string]
  · intro hno
    have he : e.error = Option.none ∨ e.error = some .DialogClosed := by
      rcases h : e.error with _ | err
      · exact Or.inl rfl
      · cases err with
        | IOFailed k => exact absurd h (hno k)
        | DialogClosed => exact Or.inr rfl
    constructor
    · intro p s hp hs
      rw [PathBuf.to_str] at hs
      rcases he with he | he <;>
        simp [Editor.view, he, hp, PathBuf.to_str, hs, Option.bind]
    · intro hp
      rcases he with he | he <;> simp [Editor.view, he, hp]
  · simp [Editor.view]

/-- Witness for C5 at a concrete editor with an I/O error. -/
theorem C5_status_bar_text_witness :
    (Editor.view { content := Content.new,
                   error := some (.IOFailed { message := "boom" }),
                   path := Option.none,
                   theme := .SolarizedDark }).filePathText = "boom" :=
  (C5_status_bar_text _).1 { message := "boom" } rfl

/-- C6: the view renders the cursor display text as the 1-based pair
"(line+1):(column+1)" of the buffer's 0-based `cursor_position()`; in
particular cursor (0, 0) renders as "1:1" and (4, 9) as "5:10". -/
theorem C6_cursor_one_based (e : Editor) (line column : Nat)
    (h : e.content.cursor_position = (line, column)) :
    e.view.positionText = toString (line + 1) ++ ":" ++ toString (column + 1) ∧
    (Editor.view { e with
        content := { e.content with cursorLine := 0, cursorColumn := 0 } }).positionText
      = "1:1" ∧
    (Editor.view { e with
        content := { e.content with cursorLine := 4, cursorColumn := 9 } }).positionText
      = "5:10" := by
  rw [Content.cursor_position, Prod.mk.injEq] at h
  obtain ⟨h1, h2⟩ := h
  refine ⟨?_, ?_, ?_⟩
  · simp [Editor.view, Content.cursor_position, h1, h2, String.append_assoc,
      String.append_empty, String.empty_append, toString]
  · simp only [Editor.view, Content.cursor_position]
    decide
  · simp only [Editor.view, Content.cursor_position]
    decide

/-- Witness for C6 at a concrete editor with cursor (4, 9). -/
theorem C6_cursor_one_based_witness :
    (Editor.view { content := { text := "x", cursorLine := 4, cursorColumn := 9 },
                   error := Option.none, path := Option.none,
                   theme := .SolarizedDark }).positionText
      = toString (4 + 1) ++ ":" ++ toString (9 + 1) :=
  (C6_cursor_one_based
    { content := { text := "x", cursorLine := 4, cursorColumn := 9 },
      error := Option.none, path := Option.none,
      theme := .SolarizedDark } 4 9 rfl).1

/-- C7: no transition ever clears the error slot: every message either
leaves it unchanged or overwrites it with some new error; a recorded error
survives every transition; and successful load and save completions in
particular leave a stale error in place. -/
theorem C7_error_never_cleared (e : Editor) (m : Message) :
    ((e.update m).1.error = e.error ∨ ∃ err, (e.update m).1.error = some err) ∧
    (∀ err, e.error = some err → (e.update m).1.error ≠ Option.none) ∧
    (∀ p t, (e.update (.FileOpened (.ok (p, t)))).1.error = e.error) ∧
    (∀ p, (e.update (.FileSaved (.ok p))).1.error = e.error) := by
  have hcases :
      (e.update m).1.error = e.error ∨ ∃ err, (e.update m).1.error = some err := by
    cases m with
    | Edit a => exact Or.inl rfl
    | FileOpened r =>
      rcases r with err | ⟨p, t⟩
      · exact Or.inr ⟨err, rfl⟩
      · exact Or.inl rfl
    | Open => exact Or.inl rfl
    | New => exact Or.inl rfl
    | Save => exact Or.inl rfl
    | FileSaved r =>
      rcases r with err | p
      · exact Or.inr ⟨err, rfl⟩
      · exact Or.inl rfl
    | ThemeSeleceted t => exact Or.inl rfl
  refine ⟨hcases, ?_, fun p t => rfl, fun p => rfl⟩
  intro err herr
  rcases hcases with hsame | ⟨err2, hnew⟩
  · rw [hsame, herr]; exact Option.some_ne_none err
  · rw [hnew]; exact Option.some_ne_none err2

/-- Witness for C7: the recorded DialogClosed error survives an Open. -/
theorem C7_error_never_cleared_witness :
    (editorWithError.update .Open).1.error ≠ Option.none :=
  (C7_error_never_cleared editorWithError .Open).2.1 .DialogClosed rfl

/-- C8: `Editor::new()` starts with an empty buffer, no path, no error,
and the built-in dark theme SolarizedDark, and schedules exactly the one
task that loads the fixed default file, whose completion is delivered as a
`FileOpened` (LoadCompleted) message in every environment. -/
theorem C8_startup (manifestDir : String) (env : Env) :
    (Editor.new manifestDir).1.content = Content.new ∧
    (Editor.new manifestDir).1.content.text = "" ∧
    (Editor.new manifestDir).1.path = Option.none ∧
    (Editor.new manifestDir).1.error = Option.none ∧
    (Editor.new manifestDir).1.theme = .SolarizedDark ∧
    HighlighterTheme.is_dark (Editor.new manifestDir).1.theme = true ∧
    (Editor.new manifestDir).2 = .perform_load (default_load_file manifestDir) ∧
    ((Editor.new manifestDir).2).run env
      = some (.FileOpened (load_file (default_load_file manifestDir) env.read)) := by
  exact ⟨rfl, rfl, rfl, rfl, rfl, rfl, rfl, rfl⟩

/-- C9: the render theme is a pure function of the highlight theme alone,
and it is Dark exactly when the highlight theme is dark-family (Light
otherwise). -/
theorem C9_render_theme (e e2 : Editor) :
    (e.renderTheme = .Dark ↔ e.theme.is_dark = true) ∧
    (e.renderTheme = .Light ↔ e.theme.is_dark = false) ∧
    (e2.theme = e.theme → e2.renderTheme = e.renderTheme) := by
  refine ⟨?_, ?_, ?_⟩
  · cases hd : e.theme.is_dark <;> simp [Editor.renderTheme, hd]
  · cases hd : e.theme.is_dark <;> simp [Editor.renderTheme, hd]
  · intro h
    simp [Editor.renderTheme, h]

/-- Witness for C9: two editors sharing the SolarizedDark highlight theme
get the same render theme. -/
theorem C9_render_theme_witness :
    editorWithError.renderTheme = editorWithPath.renderTheme :=
  (C9_render_theme editorWithPath editorWithError).2.2 rfl

/-- C10: the language token handed to the highlighter is the current
path's extension when the path is present and its extension exists and is
UTF-8-representable, and the fallback "rs" otherwise (no path, no
extension, or a non-UTF-8 extension). -/
theorem C10_highlight_token (e : Editor) :
    (e.path = Option.none → e.view.highlightToken = "rs") ∧
    (∀ p, e.path = some p → p.extension = Option.none →
      e.view.highlightToken = "rs") ∧
    (∀ p o, e.path = some p → p.extension = some o → o.to_str = Option.none →
      e.view.highlightToken = "rs") ∧
    (∀ p o s, e.path = some p → p.extension = some o → o.to_str = some s →
      e.view.highlightToken = s) := by
  refine ⟨?_, ?_, ?_, ?_⟩
  · intro h; simp [Editor.view, h]
  · intro p hp hx; simp [Editor.view, hp, hx]
  · intro p o hp hx hs; simp [Editor.view, hp, hx, hs]
  · intro p o s hp hx hs; simp [Editor.view, hp, hx, hs]

/-- Witness for C10: the sample editor whose path has extension "rs". -/
theorem C10_highlight_token_witness :
    editorWithPath.view.highlightToken = "rs" :=
  (C10_highlight_token editorWithPath).2.2.2 pathA { to_str := some "rs" } "rs"
    rfl rfl rfl
